import Mathlib

/-!
Verification of the droneserver repository's specification against its code.

The repository is a Next.js web application bridging a DJI Pilot 2 browser
session to an MQTT broker.  The definitions below are shallow embeddings of
the repository's source files (`lib/db.ts`, `src/pages/dji-login.tsx`,
`src/pages/api/dji/config.ts`, the login API handler, and the near-duplicate
page variants), plus, where the specification describes operations that have
no implementation anywhere in the sources, models built from the
specification's own words (each such definition is marked
`Modelled from the spec:` in its doc comment).
-/

namespace Droneserver

/-! ## Telemetry Store (spec §4.5, schema from `lib/db.ts`)

`lib/db.ts` creates the table
`telemetry(timestamp INTEGER PRIMARY KEY, latitude REAL, ..., received_at INTEGER)`.
The repository contains no code that inserts into or reads from this table;
only the schema exists.  The store's operations are therefore modelled from
the spec (§4.5). -/

/-- Mirror of the `telemetry` table columns declared in `lib/db.ts`
(`timestamp INTEGER PRIMARY KEY`, REAL data columns, `received_at INTEGER`).
REAL columns are modelled as rationals, INTEGER columns as integers. -/
structure TelemetrySample where
  timestamp : Int
  latitude : Rat
  longitude : Rat
  altitude : Rat
  elevation : Rat
  attitudePitch : Rat
  attitudeRoll : Rat
  attitudeHead : Rat
  horizontalSpeed : Rat
  verticalSpeed : Rat
  receivedAt : Int
deriving DecidableEq, Repr

/-- The store state: the rows of the `telemetry` table, most recent write
first.  The `timestamp INTEGER PRIMARY KEY` column of `lib/db.ts` makes
`timestamp` the unique key. -/
def TelemetryStore : Type := List TelemetrySample

/-- Modelled from the spec: §4.5 `append` — missing from the sources (the
repository only declares the table).  "`append` is an upsert keyed by
`timestamp`: a duplicate timestamp overwrites the prior sample rather than
erroring."  The new row replaces any prior row with the same timestamp. -/
def append (store : TelemetryStore) (s : TelemetrySample) : TelemetryStore :=
  s :: List.filter (fun r => r.timestamp ≠ s.timestamp) store

/-- Insert a sample into a list ordered by ascending timestamp. -/
def insertByTs (s : TelemetrySample) : List TelemetrySample → List TelemetrySample
  | [] => [s]
  | r :: rs => if s.timestamp ≤ r.timestamp then s :: r :: rs else r :: insertByTs s rs

/-- Order samples by ascending timestamp (insertion sort). -/
def sortByTs : List TelemetrySample → List TelemetrySample
  | [] => []
  | r :: rs => insertByTs r (sortByTs rs)

/-- Modelled from the spec: §4.5 `range` — missing from the sources.
"`range(from, to) -> lazy sequence of TelemetrySample ordered by timestamp`":
the rows whose timestamp lies in the inclusive window, ordered by
timestamp. -/
def range (store : TelemetryStore) (lo hi : Int) : List TelemetrySample :=
  sortByTs (List.filter (fun r => lo ≤ r.timestamp ∧ r.timestamp ≤ hi) store)

/-- The last sample in an append sequence carrying a given timestamp. -/
def lastWith (t : Int) : List TelemetrySample → Option TelemetrySample
  | [] => none
  | s :: rest =>
    match lastWith t rest with
    | some u => some u
    | none => if s.timestamp = t then some s else none

/-- Replay a whole sequence of `append` calls against a store. -/
def appendAll (store : TelemetryStore) (sams : List TelemetrySample) : TelemetryStore :=
  List.foldl append store sams

theorem lastWith_cons (t : Int) (s : TelemetrySample) (rest : List TelemetrySample) :
    lastWith t (s :: rest) =
      match lastWith t rest with
      | some u => some u
      | none => if s.timestamp = t then some s else none := rfl

theorem filter_append_eq (store : TelemetryStore) (s : TelemetrySample) (t : Int) :
    List.filter (fun r => decide (r.timestamp = t)) (append store s) =
      if s.timestamp = t then [s]
      else List.filter (fun r => decide (r.timestamp = t)) store := by
  have key : ∀ rest : List TelemetrySample,
      List.filter (fun r => decide (r.timestamp = t) && !decide (r.timestamp = s.timestamp)) rest =
        if s.timestamp = t then []
        else List.filter (fun r => decide (r.timestamp = t)) rest := by
    intro rest
    induction rest with
    | nil => simp
    | cons a rs ih =>
      by_cases hat : a.timestamp = t
      · by_cases hst : s.timestamp = t
        · have has : a.timestamp = s.timestamp := by omega
          simp [List.filter_cons, hat, has, hst, ih]
        · have has : ¬a.timestamp = s.timestamp := by omega
          simp [List.filter_cons, hat, has, hst, ih]
          omega
      · by_cases hst : s.timestamp = t
        · simp [List.filter_cons, hat, hst, ih]
        · simp [List.filter_cons, hat, hst, ih]
  unfold append
  by_cases hst : s.timestamp = t
  · simp [List.filter_cons, List.filter_filter, hst, key]
  · simp [List.filter_cons, List.filter_filter, hst, key]

theorem filter_appendAll (sams : List TelemetrySample) (t : Int) :
    ∀ store : TelemetryStore,
      List.filter (fun r => decide (r.timestamp = t)) (appendAll store sams) =
        match lastWith t sams with
        | some u => [u]
        | none => List.filter (fun r => decide (r.timestamp = t)) store := by
  induction sams with
  | nil => intro store; simp [appendAll, lastWith]
  | cons s rest ih =>
    intro store
    have hstep : appendAll store (s :: rest) = appendAll (append store s) rest := rfl
    rw [hstep, ih (append store s), filter_append_eq store s t, lastWith_cons]
    cases hrest : lastWith t rest with
    | some u => simp
    | none =>
      by_cases h : s.timestamp = t
      · simp [h]
      · simp [h]

theorem filter_window_self (store : TelemetryStore) (t : Int) :
    List.filter (fun r => decide (t ≤ r.timestamp ∧ r.timestamp ≤ t)) store =
      List.filter (fun r => decide (r.timestamp = t)) store := by
  apply List.filter_congr
  intro r _
  by_cases h : r.timestamp = t
  · simp [h]
  · simp only [decide_eq_decide]
    constructor
    · intro hc; omega
    · intro hc; omega

/-- C1: replaying any sequence of `append(sample)` calls in which timestamp
`t` occurs (possibly repeatedly) against an empty store, the `range` query
for exactly `t` returns exactly one record, and that record is the
last-appended sample carrying timestamp `t`: `append` upserts on the
`timestamp` primary key, so a duplicate timestamp overwrites the prior
sample instead of erroring. -/
theorem c1_append_is_timestamp_upsert (sams : List TelemetrySample) (t : Int)
    (u : TelemetrySample) (h : lastWith t sams = some u) :
    range (appendAll [] sams) t t = [u] := by
  unfold range
  rw [filter_window_self, filter_appendAll sams t [], h]
  rfl

/-- A sample with all data fields zero at the given timestamp. -/
def sampleAt (t : Int) (lat : Rat) : TelemetrySample :=
  { timestamp := t, latitude := lat, longitude := 0, altitude := 0, elevation := 0,
    attitudePitch := 0, attitudeRoll := 0, attitudeHead := 0,
    horizontalSpeed := 0, verticalSpeed := 0, receivedAt := t }

/-- Witness for C1: appending two samples with the same timestamp 1000 (and a
third at another timestamp), `range 1000 1000` returns exactly the
second-appended sample. -/
theorem c1_append_is_timestamp_upsert_witness :
    range (appendAll [] [sampleAt 1000 1, sampleAt 1000 2, sampleAt 2000 3]) 1000 1000 =
      [sampleAt 1000 2] :=
  c1_append_is_timestamp_upsert [sampleAt 1000 1, sampleAt 1000 2, sampleAt 2000 3] 1000
    (sampleAt 1000 2) (by decide)

/-! ## Inbound message handling (C4): `window.onTelemetryChange`,
`src/pages/dji-login.tsx` lines 249–272.

The handler does `JSON.parse(message)` inside a `try`, falling back to the
raw string on parse failure, then branches on
`typeof parsedMessage === 'object' && parsedMessage.method === "update_topo"`;
the whole body sits inside an outer `try`/`catch` that turns any thrown
error into an error log line. -/

/-- JSON values as produced by `JSON.parse`. -/
inductive Json where
  | null
  | bool (b : Bool)
  | num (n : Rat)
  | str (s : String)
  | arr (elems : List Json)
  | obj (fields : List (String × Json))

/-- JS object member access `o[k]` on a parsed JSON object. -/
def jsonLookup (k : String) : List (String × Json) → Option Json
  | [] => none
  | (k', v) :: rest => if k' = k then some v else jsonLookup k rest

/-- The outcome of the single `JSON.parse(message)` attempt the handler
makes: either the parse threw (malformed input, handler keeps the raw
string) or it produced a JSON value.  A doubly-encoded payload parses to a
`Json.str` whose contents the handler never unwraps again. -/
inductive InboundPayload where
  | malformed (raw : String)
  | parsed (j : Json)

/-- What the handler does with a message: a brief topology log (carrying the
`data?.sub_devices?.[0]?.sn` chain result), the catch-all full message log,
or the outer catch's error log. -/
inductive HandlerAction where
  | topoLog (sn : Option Json)
  | fullLog
  | errorLog

/-- The optional-chain `parsedMessage.data?.sub_devices?.[0]?.sn` from the
topology branch. -/
def topoChainSn (fields : List (String × Json)) : Option Json :=
  match jsonLookup "data" fields with
  | some (.obj dfields) =>
    match jsonLookup "sub_devices" dfields with
    | some (.arr (first :: _)) =>
      match first with
      | .obj sfields => jsonLookup "sn" sfields
      | _ => none
    | _ => none
  | _ => none

/-- Embedding of `window.onTelemetryChange` (`src/pages/dji-login.tsx`
lines 249–272).  Parse failure falls back to the raw string, whose
`typeof` is not `'object'`, so it reaches the catch-all log branch.  A
parsed `null` has `typeof 'object'`, so `parsedMessage.method` throws and
the outer catch logs the error.  Arrays and objects have `typeof 'object'`;
only an object whose `method` member is the string `"update_topo"` takes
the brief topology branch; everything else is logged in full. -/
def onTelemetryChange : InboundPayload → HandlerAction
  | .malformed _ => .fullLog
  | .parsed .null => .errorLog
  | .parsed (.obj fields) =>
    match jsonLookup "method" fields with
    | some (.str m) => if m = "update_topo" then .topoLog (topoChainSn fields) else .fullLog
    | _ => .fullLog
  | .parsed (.arr _) => .fullLog
  | .parsed (.bool _) => .fullLog
  | .parsed (.num _) => .fullLog
  | .parsed (.str _) => .fullLog

/-- C4: the inbound decode path is total — a malformed payload (the
`JSON.parse` attempt threw) and a doubly-encoded payload (the one parse
attempt yielded a string, which the handler never unwraps a second time)
are both classified by the catch-all log branch, independently of the
payload contents, and every possible payload results in one of the
handler's three log actions; no input makes the handler raise. -/
theorem c4_decode_total_never_raises :
    (∀ raw : String, onTelemetryChange (.malformed raw) = .fullLog) ∧
    (∀ s : String, onTelemetryChange (.parsed (.str s)) = .fullLog) ∧
    (∀ p : InboundPayload,
      onTelemetryChange p = .fullLog ∨ onTelemetryChange p = .errorLog ∨
      ∃ sn, onTelemetryChange p = .topoLog sn) := by
  refine ⟨fun raw => rfl, fun s => rfl, fun p => ?_⟩
  match p with
  | .malformed _ => exact Or.inl rfl
  | .parsed .null => exact Or.inr (Or.inl rfl)
  | .parsed (.bool _) => exact Or.inl rfl
  | .parsed (.num _) => exact Or.inl rfl
  | .parsed (.str _) => exact Or.inl rfl
  | .parsed (.arr _) => exact Or.inl rfl
  | .parsed (.obj fields) =>
    cases hlook : jsonLookup "method" fields with
    | none => exact Or.inl (by simp [onTelemetryChange, hlook])
    | some j =>
      cases j with
      | null => exact Or.inl (by simp [onTelemetryChange, hlook])
      | bool b => exact Or.inl (by simp [onTelemetryChange, hlook])
      | num n => exact Or.inl (by simp [onTelemetryChange, hlook])
      | arr es => exact Or.inl (by simp [onTelemetryChange, hlook])
      | obj fs => exact Or.inl (by simp [onTelemetryChange, hlook])
      | str m =>
        by_cases hm : m = "update_topo"
        · exact Or.inr (Or.inr ⟨topoChainSn fields, by simp [onTelemetryChange, hlook, hm]⟩)
        · exact Or.inl (by simp [onTelemetryChange, hlook, hm])

/-! ## Command envelopes (C5): `generateUUID` and the `thing.cmd.send`
messages, `src/pages/dji-login.tsx` lines 36–43 and 184–221. -/

/-- JS `r.toString(16)` for `r` in 0–15. -/
def hexChar (n : Nat) : Char :=
  if n = 0 then '0' else if n = 1 then '1' else if n = 2 then '2'
  else if n = 3 then '3' else if n = 4 then '4' else if n = 5 then '5'
  else if n = 6 then '6' else if n = 7 then '7' else if n = 8 then '8'
  else if n = 9 then '9' else if n = 10 then 'a' else if n = 11 then 'b'
  else if n = 12 then 'c' else if n = 13 then 'd' else if n = 14 then 'e'
  else 'f'

/-- The characters of the template `'xxxxxxxx-xxxx-4xxx-yxxx-xxxxxxxxxxxx'`
from `generateUUID`. -/
def uuidTemplate : List Char :=
  ['x','x','x','x','x','x','x','x','-','x','x','x','x','-','4','x','x','x','-',
   'y','x','x','x','-','x','x','x','x','x','x','x','x','x','x','x','x']

/-- The `template.replace(/[xy]/g, ...)` loop of `generateUUID`: each matched
`x`/`y` consumes one draw `r = Math.random() * 16 | 0` (modelled as
`rand 0 % 16`, with `rand` shifted for subsequent draws); `x` becomes
`r.toString(16)` and `y` becomes `((r & 0x3) | 0x8).toString(16)`, which is
`r % 4 + 8` in hex.  Unmatched characters are copied and consume no draw. -/
def fillTemplate (rand : Nat → Nat) : List Char → List Char
  | [] => []
  | c :: cs =>
    if c = 'x' then hexChar (rand 0 % 16) :: fillTemplate (fun n => rand (n + 1)) cs
    else if c = 'y' then hexChar (rand 0 % 16 % 4 + 8) :: fillTemplate (fun n => rand (n + 1)) cs
    else c :: fillTemplate rand cs

/-- Embedding of `generateUUID` (`src/pages/dji-login.tsx` lines 36–43) over
the stream `rand` of successive `Math.random() * 16 | 0` draws. -/
def generateUUID (rand : Nat → Nat) : String :=
  String.mk (fillTemplate rand uuidTemplate)

theorem generateUUID_data (rand : Nat → Nat) :
    (generateUUID rand).data =
      [hexChar (rand 0 % 16), hexChar (rand 1 % 16), hexChar (rand 2 % 16),
       hexChar (rand 3 % 16), hexChar (rand 4 % 16), hexChar (rand 5 % 16),
       hexChar (rand 6 % 16), hexChar (rand 7 % 16), '-',
       hexChar (rand 8 % 16), hexChar (rand 9 % 16), hexChar (rand 10 % 16),
       hexChar (rand 11 % 16), '-', '4',
       hexChar (rand 12 % 16), hexChar (rand 13 % 16), hexChar (rand 14 % 16), '-',
       hexChar (rand 15 % 16 % 4 + 8),
       hexChar (rand 16 % 16), hexChar (rand 17 % 16), hexChar (rand 18 % 16), '-',
       hexChar (rand 19 % 16), hexChar (rand 20 % 16), hexChar (rand 21 % 16),
       hexChar (rand 22 % 16), hexChar (rand 23 % 16), hexChar (rand 24 % 16),
       hexChar (rand 25 % 16), hexChar (rand 26 % 16), hexChar (rand 27 % 16),
       hexChar (rand 28 % 16), hexChar (rand 29 % 16), hexChar (rand 30 % 16)] := rfl

/-- The command envelope fields, exactly those of the object literal
`{tid, bid, timestamp, method, data}` built for `thing.cmd.send` in
`src/pages/dji-login.tsx` (lines 184–198 and 206–221). -/
structure CommandEnvelope where
  tid : String
  bid : String
  timestamp : Int
  method : String
  data : List (String × Json)

/-- Embedding of the envelope construction
`{tid: generateUUID(), bid: generateUUID(), timestamp: Date.now(), method,
data}`: the first `generateUUID()` call consumes stream draws 0–30, the
second the subsequent draws 31–61, so each command's two identifiers come
from fresh, disjoint randomness. -/
def mkCommandEnvelope (rand : Nat → Nat) (now : Int) (method : String)
    (data : List (String × Json)) : CommandEnvelope :=
  { tid := generateUUID rand
    bid := generateUUID (fun n => rand (n + 31))
    timestamp := now
    method := method
    data := data }

/-- The version-4 UUID surface shape: 36 characters, hyphens at positions
8, 13, 18 and 23, version nibble `'4'` at position 14, variant nibble in
`8`–`b` at position 19. -/
def uuidV4Shape (s : String) : Prop :=
  s.length = 36 ∧
  s.data.getD 8 ' ' = '-' ∧ s.data.getD 13 ' ' = '-' ∧
  s.data.getD 18 ' ' = '-' ∧ s.data.getD 23 ' ' = '-' ∧
  s.data.getD 14 ' ' = '4' ∧
  s.data.getD 19 ' ' ∈ (['8', '9', 'a', 'b'] : List Char)

theorem hexChar_variant_mem (r : Nat) :
    hexChar (r % 16 % 4 + 8) ∈ (['8', '9', 'a', 'b'] : List Char) := by
  have h : r % 16 % 4 = 0 ∨ r % 16 % 4 = 1 ∨ r % 16 % 4 = 2 ∨ r % 16 % 4 = 3 := by omega
  rcases h with h | h | h | h <;> rw [h] <;> decide

theorem generateUUID_shape (rand : Nat → Nat) : uuidV4Shape (generateUUID rand) := by
  have hd := generateUUID_data rand
  refine ⟨?_, ?_, ?_, ?_, ?_, ?_, ?_⟩
  · show (generateUUID rand).data.length = 36
    rw [hd]; rfl
  · rw [hd]; rfl
  · rw [hd]; rfl
  · rw [hd]; rfl
  · rw [hd]; rfl
  · rw [hd]; rfl
  · rw [hd]
    show hexChar (rand 15 % 16 % 4 + 8) ∈ (['8', '9', 'a', 'b'] : List Char)
    exact hexChar_variant_mem (rand 15)

theorem hexChar_inj_fin :
    ∀ m n : Fin 16, hexChar m.val = hexChar n.val → m.val = n.val := by
  decide

/-- C5: every command envelope has exactly the fields
`{tid, bid, timestamp, method, data}` with `timestamp` the send time,
`tid` and `bid` are each version-4-shaped UUID strings built from fresh
random draws (`tid` from draws 0–30, `bid` from the disjoint draws 31–61 of
the same stream), and whenever the two draws feeding the leading hex digit
differ the two identifiers are distinct strings (no reuse of `tid` as
`bid`). -/
theorem c5_command_envelope_shape (rand : Nat → Nat) (now : Int) (method : String)
    (data : List (String × Json))
    (hfresh : rand 0 % 16 ≠ rand 31 % 16) :
    (mkCommandEnvelope rand now method data).method = method ∧
    (mkCommandEnvelope rand now method data).timestamp = now ∧
    (mkCommandEnvelope rand now method data).data = data ∧
    (mkCommandEnvelope rand now method data).tid = generateUUID rand ∧
    (mkCommandEnvelope rand now method data).bid =
      generateUUID (fun n => rand (n + 31)) ∧
    uuidV4Shape (mkCommandEnvelope rand now method data).tid ∧
    uuidV4Shape (mkCommandEnvelope rand now method data).bid ∧
    (mkCommandEnvelope rand now method data).tid ≠
      (mkCommandEnvelope rand now method data).bid := by
  refine ⟨rfl, rfl, rfl, rfl, rfl, generateUUID_shape rand,
    generateUUID_shape (fun n => rand (n + 31)), ?_⟩
  intro hcontra
  apply hfresh
  have hdata : (generateUUID rand).data =
      (generateUUID (fun n => rand (n + 31))).data := by
    exact congrArg String.data hcontra
  rw [generateUUID_data, generateUUID_data] at hdata
  have hhead : hexChar (rand 0 % 16) = hexChar (rand 31 % 16) := by
    have := List.head_eq_of_cons_eq hdata
    simpa using this
  have h0 : rand 0 % 16 < 16 := Nat.mod_lt _ (by norm_num)
  have h31 : rand 31 % 16 < 16 := Nat.mod_lt _ (by norm_num)
  exact hexChar_inj_fin ⟨rand 0 % 16, h0⟩ ⟨rand 31 % 16, h31⟩ hhead

/-- Witness for C5 at the identity random stream: the envelope has the
documented fields and two distinct v4-shaped identifiers. -/
theorem c5_command_envelope_shape_witness :
    (mkCommandEnvelope id 1700000000000 "osd.config" []).method = "osd.config" ∧
    (mkCommandEnvelope id 1700000000000 "osd.config" []).timestamp = 1700000000000 ∧
    (mkCommandEnvelope id 1700000000000 "osd.config" []).data = [] ∧
    (mkCommandEnvelope id 1700000000000 "osd.config" []).tid = generateUUID id ∧
    (mkCommandEnvelope id 1700000000000 "osd.config" []).bid =
      generateUUID (fun n => id (n + 31)) ∧
    uuidV4Shape (mkCommandEnvelope id 1700000000000 "osd.config" []).tid ∧
    uuidV4Shape (mkCommandEnvelope id 1700000000000 "osd.config" []).bid ∧
    (mkCommandEnvelope id 1700000000000 "osd.config" []).tid ≠
      (mkCommandEnvelope id 1700000000000 "osd.config" []).bid :=
  c5_command_envelope_shape id 1700000000000 "osd.config" [] (by decide)

/-! ## The `/api/dji/config` endpoint (C7, C10):
`src/pages/api/dji/config.ts`. -/

/-- JS truthiness of an optional environment/string value: `undefined` and
the empty string are falsy. -/
def jsTruthy (o : Option String) : Bool := o.getD "" ≠ ""

/-- JS `a || b` on an optional string: the fallback applies when the value
is absent or empty. -/
def jsOr (o : Option String) (d : String) : String :=
  if jsTruthy o then o.getD "" else d

/-- Character-list test for one list starting with another. -/
def charsStart : List Char → List Char → Bool
  | _, [] => true
  | [], _ :: _ => false
  | c :: cs, p :: ps => c = p && charsStart cs ps

/-- JS `s.startsWith(p)`. -/
def jsStartsWith (s p : String) : Bool := charsStart s.data p.data

theorem charsStart_append (p rest : List Char) : charsStart (p ++ rest) p = true := by
  induction p with
  | nil => cases rest <;> rfl
  | cons c cs ih => simp [charsStart, ih]

theorem jsStartsWith_append (p v : String) : jsStartsWith (p ++ v) p = true := by
  unfold jsStartsWith
  rw [String.data_append]
  exact charsStart_append p.data v.data

/-- The JSON body the config handler returns on success, with exactly the
fields of the `config` object literal in `src/pages/api/dji/config.ts`;
fields read straight off `process.env` are optional. -/
structure DjiConfigBody where
  appId : Option String
  appKey : Option String
  license : Option String
  mqttHost : String
  mqttUsername : String
  mqttPassword : String
  serverBaseUrl : String
  websocketUrl : Option String
  platformName : String
  sessionToken : String
  workspaceId : String
  workspaceName : String
  workspaceDesc : String

/-- A response from the config endpoint: a 200 config body or a 500 error
body. -/
inductive ConfigResponse where
  | ok (body : DjiConfigBody)
  | fail (message : String)

/-- Embedding of the handler in `src/pages/api/dji/config.ts`.  `env` is
`process.env` and `freshUuid` the `uuidv4()` fallback for the workspace id.
A missing or empty `DJI_SERVER_BASE_URL` throws, which the catch turns into
a 500 error response; otherwise the URL is passed through when it already
starts with `http://` or `https://` and prefixed with `https://` otherwise,
and the body carries the hardcoded broker endpoint and credentials
`mqtt://89.17.150.216:1883`, `droneuser` and `Jotunheimar`. -/
def configBody (env : String → Option String) (freshUuid : String)
    (formattedBaseUrl : String) : DjiConfigBody :=
  { appId := env "DJI_APP_ID"
    appKey := env "DJI_APP_KEY"
    license := env "DJI_LICENSE"
    mqttHost := "mqtt://89.17.150.216:1883"
    mqttUsername := "droneuser"
    mqttPassword := "Jotunheimar"
    serverBaseUrl := formattedBaseUrl
    websocketUrl := env "DJI_WEBSOCKET_URL"
    platformName := jsOr (env "DJI_PLATFORM_NAME") "DJI Platform"
    sessionToken := "generated-or-fetched-session-token"
    workspaceId := jsOr (env "DJI_WORKSPACE_ID") freshUuid
    workspaceName := jsOr (env "DJI_WORKSPACE_NAME") "Default Workspace"
    workspaceDesc := jsOr (env "DJI_WORKSPACE_DESC") "Default Workspace Description" }

/-- The `https://`-prefixing of the configured base URL. -/
def formatBaseUrl (v : String) : String :=
  if jsStartsWith v "http://" || jsStartsWith v "https://" then v
  else "https://" ++ v

def configHandler (env : String → Option String) (freshUuid : String) :
    Nat × ConfigResponse :=
  if jsTruthy (env "DJI_SERVER_BASE_URL") = false then
    (500, .fail "Server base URL is not configured")
  else
    (200, .ok (configBody env freshUuid (formatBaseUrl ((env "DJI_SERVER_BASE_URL").getD ""))))

/-- An environment with `DJI_SERVER_BASE_URL` set to the empty string and
nothing else set. -/
def envEmptyBaseUrl : String → Option String :=
  fun k => if k = "DJI_SERVER_BASE_URL" then some "" else none

/-- C10 counterexample: in an environment where `DJI_SERVER_BASE_URL` is set
(to the empty string), the endpoint does not return a config object with a
scheme-prefixed `serverBaseUrl` — it returns the 500 error response, because
the handler tests JS truthiness, under which an empty string counts as not
configured. -/
theorem c10_counterexample_empty_value :
    envEmptyBaseUrl "DJI_SERVER_BASE_URL" = some "" ∧
    configHandler envEmptyBaseUrl "w" = (500, .fail "Server base URL is not configured") := by
  constructor
  · rfl
  · rfl

/-- C10 (amended): whenever `DJI_SERVER_BASE_URL` is set to a non-empty
value, the handler returns 200 with a body whose `serverBaseUrl` begins with
`http://` or `https://` — the value is passed through unchanged when it
already carries one of those schemes and is prefixed with `https://`
otherwise; and whenever the variable is unset (or empty, by JS truthiness)
the handler returns 500 with an error body instead of a config object. -/
theorem c10_server_base_url_scheme (env : String → Option String) (u v : String)
    (hset : env "DJI_SERVER_BASE_URL" = some v) (hne : v ≠ "") :
    (∃ body : DjiConfigBody,
      configHandler env u = (200, .ok body) ∧
      (jsStartsWith body.serverBaseUrl "http://" = true ∨
        jsStartsWith body.serverBaseUrl "https://" = true) ∧
      body.serverBaseUrl =
        (if jsStartsWith v "http://" || jsStartsWith v "https://" then v
         else "https://" ++ v)) ∧
    (∀ envB : String → Option String, ∀ uB : String,
      envB "DJI_SERVER_BASE_URL" = none →
      configHandler envB uB = (500, .fail "Server base URL is not configured")) := by
  constructor
  · have htruthy : jsTruthy (env "DJI_SERVER_BASE_URL") = true := by
      rw [hset]; simp [jsTruthy, hne]
    refine ⟨configBody env u (formatBaseUrl v), ?_, ?_, ?_⟩
    · unfold configHandler
      rw [htruthy, hset]
      rfl
    · show (jsStartsWith (formatBaseUrl v) "http://" = true ∨
        jsStartsWith (formatBaseUrl v) "https://" = true)
      unfold formatBaseUrl
      by_cases hschema : (jsStartsWith v "http://" || jsStartsWith v "https://") = true
      · rw [if_pos hschema]
        rcases Bool.or_eq_true_iff.mp hschema with h | h
        · exact Or.inl h
        · exact Or.inr h
      · rw [if_neg hschema]
        exact Or.inr (jsStartsWith_append "https://" v)
    · show (configBody env u (formatBaseUrl v)).serverBaseUrl = _
      rfl
  · intro envB uB hnone
    unfold configHandler
    rw [hnone]
    rfl

/-- Witness for C10's amended theorem at a concrete environment carrying
`DJI_SERVER_BASE_URL = example.com`. -/
theorem c10_server_base_url_scheme_witness :
    (∃ body : DjiConfigBody,
      configHandler (fun k => if k = "DJI_SERVER_BASE_URL" then some "example.com" else none)
          "w" = (200, .ok body) ∧
      (jsStartsWith body.serverBaseUrl "http://" = true ∨
        jsStartsWith body.serverBaseUrl "https://" = true) ∧
      body.serverBaseUrl =
        (if jsStartsWith "example.com" "http://" || jsStartsWith "example.com" "https://"
         then "example.com" else "https://" ++ "example.com")) ∧
    (∀ envB : String → Option String, ∀ uB : String,
      envB "DJI_SERVER_BASE_URL" = none →
      configHandler envB uB = (500, .fail "Server base URL is not configured")) :=
  c10_server_base_url_scheme
    (fun k => if k = "DJI_SERVER_BASE_URL" then some "example.com" else none)
    "w" "example.com" (by decide) (by decide)

/-! ## Broker connection parameters (C7): `cloudParams` in
`src/pages/dji-login.tsx` lines 274–285. -/

/-- The fields of the `cloudParams` object passed to
`platformLoadComponent('thing', ...)`. -/
structure ThingModuleParams where
  host : String
  port : Nat
  username : String
  password : String
  connectCallback : String
  messageCallback : String
  clientId : String
  clean : Bool
  protocol : String

/-- Embedding of `cloudParams` (`src/pages/dji-login.tsx` lines 274–285):
the broker host, port and credentials are source literals; nothing from the
fetched `djiConfig` (the injected configuration) flows into them. -/
def cloudParams (now : Int) : ThingModuleParams :=
  { host := "89.17.150.216"
    port := 1883
    username := "droneuser"
    password := "Jotunheimar"
    connectCallback := "connectCallback"
    messageCallback := "onTelemetryChange"
    clientId := "dji_pilot_" ++ toString now
    clean := true
    protocol := "tcp" }

/-- C7 evidence: broker credentials are source-code literals, not injected
configuration, and no missing-credential failure path exists.  For every
environment — including one defining no broker-credential variable at all —
the config endpoint's success body carries the literal credentials
`droneuser`/`Jotunheimar` and literal host `mqtt://89.17.150.216:1883`; the
endpoint's only failure concerns the server base URL, never credentials;
and the connection parameters actually used to open the broker session are
the same literals, independent of any configuration value. -/
theorem c7_hardcoded_broker_credentials (env : String → Option String) (u : String)
    (body : DjiConfigBody) (hok : (configHandler env u).2 = .ok body) :
    body.mqttUsername = "droneuser" ∧
    body.mqttPassword = "Jotunheimar" ∧
    body.mqttHost = "mqtt://89.17.150.216:1883" ∧
    (∀ envB : String → Option String, ∀ uB : String,
      (configHandler envB uB).1 = 500 →
      (configHandler envB uB).2 = .fail "Server base URL is not configured") ∧
    (∀ now : Int,
      (cloudParams now).username = "droneuser" ∧
      (cloudParams now).password = "Jotunheimar" ∧
      (cloudParams now).host = "89.17.150.216") := by
  have hbody : body = configBody env u
      (formatBaseUrl ((env "DJI_SERVER_BASE_URL").getD "")) := by
    unfold configHandler at hok
    by_cases hcase : jsTruthy (env "DJI_SERVER_BASE_URL") = false
    · rw [if_pos hcase] at hok
      exact absurd hok (by simp)
    · rw [if_neg hcase] at hok
      exact (ConfigResponse.ok.injEq _ _ ▸ hok).symm
  subst hbody
  refine ⟨rfl, rfl, rfl, ?_, fun now => ⟨rfl, rfl, rfl⟩⟩
  intro envB uB h500
  unfold configHandler at h500 ⊢
  by_cases hcase : jsTruthy (envB "DJI_SERVER_BASE_URL") = false
  · rw [if_pos hcase]
  · rw [if_neg hcase] at h500
    exact absurd h500 (by simp)

/-- Witness for C7's evidence theorem: an environment with no broker
credential variables whatsoever still yields a 200 config carrying the
literal credentials. -/
theorem c7_hardcoded_broker_credentials_witness :
    (configHandler
        (fun k => if k = "DJI_SERVER_BASE_URL" then some "example.com" else none)
        "w").2 =
      ConfigResponse.ok
        (configBody (fun k => if k = "DJI_SERVER_BASE_URL" then some "example.com" else none)
          "w" (formatBaseUrl "example.com")) ∧
    (configBody (fun k => if k = "DJI_SERVER_BASE_URL" then some "example.com" else none)
        "w" (formatBaseUrl "example.com")).mqttUsername = "droneuser" ∧
    (configBody (fun k => if k = "DJI_SERVER_BASE_URL" then some "example.com" else none)
        "w" (formatBaseUrl "example.com")).mqttPassword = "Jotunheimar" := by
  refine ⟨rfl, ?_, ?_⟩
  · exact (c7_hardcoded_broker_credentials
      (fun k => if k = "DJI_SERVER_BASE_URL" then some "example.com" else none) "w"
      _ rfl).1
  · exact (c7_hardcoded_broker_credentials
      (fun k => if k = "DJI_SERVER_BASE_URL" then some "example.com" else none) "w"
      _ rfl).2.1

/-! ## The login endpoint (C9): `pages/api/auth/login.ts`
(`src/unnamed/part_003` lines 520–568) over `getUserByUsername` from
`src/lib/user-db.ts`. -/

/-- A user row as returned by `getUserByUsername`, with the stored bcrypt
hash. -/
structure StoredUser where
  id : String
  username : String
  workspaceId : String
  workspaceName : String
  role : String
  hashedPassword : String

/-- An HTTP request to the login endpoint; absent JSON body fields are
`none`. -/
structure LoginRequest where
  httpMethod : String
  username : Option String
  password : Option String

/-- The response bodies the login handler can produce. -/
inductive LoginResponseBody where
  | methodNotAllowed
  | missingFields
  | invalidCredentials
  | success (userId : String) (username : String) (token : String)
deriving DecidableEq, Repr

/-- Embedding of the login API handler: reject non-POST with 405; reject a
missing (or empty, by JS truthiness) username or password with 400; look the
username up via `getUserByUsername` (`db`), answering
`401 {error: 'Invalid credentials'}` when the user is unknown; check the
password with `bcrypt.compare` (`verify`), answering the same
`401 {error: 'Invalid credentials'}` when it does not match; otherwise sign
a JWT (`sign`) and answer 200. -/
def loginHandler (db : String → Option StoredUser) (verify : String → String → Bool)
    (sign : StoredUser → String) (req : LoginRequest) : Nat × LoginResponseBody :=
  if req.httpMethod ≠ "POST" then (405, .methodNotAllowed)
  else if !jsTruthy req.username || !jsTruthy req.password then (400, .missingFields)
  else
    match db (req.username.getD "") with
    | none => (401, .invalidCredentials)
    | some user =>
      if verify (req.password.getD "") user.hashedPassword then
        (200, .success user.id user.username (sign user))
      else (401, .invalidCredentials)

/-- C9: for well-formed POST login requests, an unknown username and a known
username with a non-matching password produce identical responses — status
401 with the body `{error: 'Invalid credentials'}` — so the response does
not reveal whether a username exists. -/
theorem c9_login_username_indistinguishable
    (db : String → Option StoredUser) (verify : String → String → Bool)
    (sign : StoredUser → String)
    (u1 p1 u2 p2 : String) (hu1 : u1 ≠ "") (hp1 : p1 ≠ "") (hu2 : u2 ≠ "") (hp2 : p2 ≠ "")
    (user : StoredUser)
    (hunknown : db u1 = none)
    (hknown : db u2 = some user)
    (hwrong : verify p2 user.hashedPassword = false) :
    loginHandler db verify sign ⟨"POST", some u1, some p1⟩ = (401, .invalidCredentials) ∧
    loginHandler db verify sign ⟨"POST", some u2, some p2⟩ = (401, .invalidCredentials) ∧
    loginHandler db verify sign ⟨"POST", some u1, some p1⟩ =
      loginHandler db verify sign ⟨"POST", some u2, some p2⟩ := by
  have h1 : loginHandler db verify sign ⟨"POST", some u1, some p1⟩ =
      (401, .invalidCredentials) := by
    unfold loginHandler
    simp [jsTruthy, hu1, hp1, hunknown]
  have h2 : loginHandler db verify sign ⟨"POST", some u2, some p2⟩ =
      (401, .invalidCredentials) := by
    unfold loginHandler
    simp [jsTruthy, hu2, hp2, hknown, hwrong]
  exact ⟨h1, h2, h1.trans h2.symm⟩

/-- Witness for C9: a one-user table (`admin`), a failing password check; the
request for the unknown name `mallory` and the request for `admin` with a
wrong password produce the identical 401 response. -/
theorem c9_login_username_indistinguishable_witness :
    loginHandler
        (fun u => if u = "admin" then
          some ⟨"1", "admin", "w", "Workspace", "admin", "hash"⟩ else none)
        (fun _ _ => false) (fun _ => "token")
        ⟨"POST", some "mallory", some "guess"⟩ = (401, .invalidCredentials) ∧
    loginHandler
        (fun u => if u = "admin" then
          some ⟨"1", "admin", "w", "Workspace", "admin", "hash"⟩ else none)
        (fun _ _ => false) (fun _ => "token")
        ⟨"POST", some "admin", some "wrongpass"⟩ = (401, .invalidCredentials) ∧
    loginHandler
        (fun u => if u = "admin" then
          some ⟨"1", "admin", "w", "Workspace", "admin", "hash"⟩ else none)
        (fun _ _ => false) (fun _ => "token")
        ⟨"POST", some "mallory", some "guess"⟩ =
      loginHandler
        (fun u => if u = "admin" then
          some ⟨"1", "admin", "w", "Workspace", "admin", "hash"⟩ else none)
        (fun _ _ => false) (fun _ => "token")
        ⟨"POST", some "admin", some "wrongpass"⟩ :=
  c9_login_username_indistinguishable
    (fun u => if u = "admin" then
      some ⟨"1", "admin", "w", "Workspace", "admin", "hash"⟩ else none)
    (fun _ _ => false) (fun _ => "token")
    "mallory" "guess" "admin" "wrongpass"
    (by decide) (by decide) (by decide) (by decide)
    ⟨"1", "admin", "w", "Workspace", "admin", "hash"⟩
    rfl rfl rfl

/-! ## Session lifecycle and reconnection (C2, C6):
`src/unnamed/part_003`, `setupDjiConnection` and `connectCallback`. -/

/-- The bridge calls of the pages that affect the broker session. -/
inductive BridgeCall where
  | loadThing (clean : Bool) (clientId : String)
  | subscribeTopic (topic : String) (qos : Nat)
  | loadOther (name : String) (params : String)

/-- The broker-side session state for the page's MQTT client. -/
structure BrokerSession where
  connected : Bool
  activeSubs : List String

/-- MQTT 3.1.1 broker-session semantics of the bridge calls: loading the
`thing` module opens a connection, and with `clean: true` (and a fresh
client id, as the pages always pass) the broker starts an empty session, so
no previous subscription survives; `thing.subscribe` adds an active
subscription; other component loads leave the broker session unchanged. -/
def applyCall (s : BrokerSession) : BridgeCall → BrokerSession
  | .loadThing true _ => { connected := true, activeSubs := [] }
  | .loadThing false _ => { s with connected := true }
  | .subscribeTopic t _ => { s with activeSubs := s.activeSubs ++ [t] }
  | .loadOther _ _ => s

def runCalls (s : BrokerSession) (cs : List BridgeCall) : BrokerSession :=
  List.foldl applyCall s cs

/-- Transport loss: the connection drops; a clean-session client leaves no
server-side state behind. -/
def transportLoss (s : BrokerSession) : BrokerSession := { s with connected := false }

/-- The topics `setupDjiConnection` subscribes to in `src/unnamed/part_003`
(lines 296–300). -/
def setupTopics : List String :=
  ["sys/product/+/status", "thing/product/+/state", "thing/product/+/property"]

/-- The broker-affecting bridge calls of `setupDjiConnection` in
`src/unnamed/part_003`: load the `thing` module with `clean: true` and a
fresh `dji_pilot_${Date.now()}` client id (lines 256–272), then subscribe to
the three topics (lines 295–319). -/
def setupCalls (now : Int) : List BridgeCall :=
  .loadThing true ("dji_pilot_" ++ toString now) ::
    List.map (fun t => .subscribeTopic t 0) setupTopics

/-- The broker-affecting bridge calls of the reconnect path scheduled by
`connectCallback` on a failed status (`src/unnamed/part_003` lines
206–228): reload the `thing` module with `clean: true` and a fresh client
id — and nothing else; no subscribe call appears in this path. -/
def reconnectCalls (now : Int) : List BridgeCall :=
  [.loadThing true ("dji_pilot_" ++ toString now)]

/-- C2 evidence: the code does not replay subscriptions on reconnect.  After
the setup sequence the session has the three topics active; following a
transport drop, the code's reconnect path — a clean-session `thing` reload
with a fresh client id and no subscribe calls — re-establishes the
connection with an empty subscription set, so no previously active
subscription is active again, contradicting the claimed automatic replay.
The spec (§4.1) states the intended behavior; the code omits it. -/
theorem c2_reconnect_drops_subscriptions (now1 now2 : Int) :
    (runCalls ⟨false, []⟩ (setupCalls now1)).activeSubs = setupTopics ∧
    setupTopics ≠ [] ∧
    (runCalls (transportLoss (runCalls ⟨false, []⟩ (setupCalls now1)))
        (reconnectCalls now2)).connected = true ∧
    (runCalls (transportLoss (runCalls ⟨false, []⟩ (setupCalls now1)))
        (reconnectCalls now2)).activeSubs = [] := by
  refine ⟨rfl, by decide, rfl, rfl⟩

/-- C6 evidence model: the disconnect branch of `connectCallback` in
`src/unnamed/part_003` (lines 203–229).  The page's state as the failure
callback fires repeatedly: every failure appends one scheduled reconnect
attempt with the fixed `setTimeout` delay of 5000 ms; the code keeps no
attempt counter, never grows the delay, and has no terminal failed state. -/
structure ReconnectLoopState where
  failureCount : Nat
  scheduledRetryDelays : List Nat
deriving DecidableEq, Repr

/-- One invocation of `connectCallback` with a failure status: log, then
`setTimeout(reconnect, 5000)` — unconditionally. -/
def onFailureStatus (s : ReconnectLoopState) : ReconnectLoopState :=
  { failureCount := s.failureCount + 1
    scheduledRetryDelays := s.scheduledRetryDelays ++ [5000] }

def reconnectInit : ReconnectLoopState := { failureCount := 0, scheduledRetryDelays := [] }

/-- C6 evidence: the reconnect loop is unbounded with a constant delay.
After any number `n` of consecutive failure callbacks the code has scheduled
exactly `n` retries, every one with the same fixed 5000 ms delay — in
particular a sixth, seventh, … failure still schedules another retry, so no
bounded attempt limit, no exponential backoff and no terminal `Failed`
state exist in the code; the bounded-backoff policy is the spec's stated
intent (§4.1, §7). -/
theorem c6_reconnect_retries_unbounded_fixed_delay (n : Nat) :
    (onFailureStatus^[n] reconnectInit).scheduledRetryDelays = List.replicate n 5000 ∧
    (onFailureStatus^[n + 1] reconnectInit).scheduledRetryDelays.length = n + 1 := by
  have key : ∀ m : Nat,
      (onFailureStatus^[m] reconnectInit).scheduledRetryDelays = List.replicate m 5000 := by
    intro m
    induction m with
    | zero => rfl
    | succ k ih =>
      rw [Function.iterate_succ_apply', List.replicate_succ']
      show (onFailureStatus^[k] reconnectInit).scheduledRetryDelays ++ [5000] = _
      rw [ih]
  exact ⟨key n, by rw [key (n + 1)]; simp⟩

/-- Witness for C6's evidence theorem at `n = 6`: after six failures — past
the claimed five-attempt bound — six fixed-delay retries have been
scheduled and a seventh failure schedules yet another. -/
theorem c6_reconnect_retries_unbounded_fixed_delay_witness :
    (onFailureStatus^[6] reconnectInit).scheduledRetryDelays = List.replicate 6 5000 ∧
    (onFailureStatus^[7] reconnectInit).scheduledRetryDelays.length = 7 :=
  c6_reconnect_retries_unbounded_fixed_delay 6

/-! ## Command/reply handling (C3): the `thing.cmd.send` path and
`window.onTelemetryChange` in `src/pages/dji-login.tsx`. -/

/-- Events reaching the page's command path: a command sent through
`platformLoadComponent('thing.cmd.send', ...)` carrying a `tid`, an inbound
broker message delivered to `window.onTelemetryChange`, and the passage of
wall-clock time. -/
inductive GatewayEvent where
  | commandSent (tid : String) (method : String)
  | inboundMessage (payload : InboundPayload)
  | elapse (ms : Nat)

/-- The page's observable command-handling state.  `pendingCommands` and
`timeoutResolutions` record what the claim requires of a correlator — a
registry of in-flight `tid`s and the commands resolved to a timeout error.
The page code touches neither: sending only logs the bridge's immediate
return value, every inbound message (including a late reply) is only logged
by `onTelemetryChange`, and no command timer exists. -/
structure PageCommandState where
  pendingCommands : List String
  timeoutResolutions : List String
  logCount : Nat
deriving DecidableEq, Repr

/-- Embedding of how `src/pages/dji-login.tsx` processes the three event
kinds: `thing.cmd.send` logs its result and registers nothing (lines
184–224), an inbound message is handled by `onTelemetryChange`, which logs
and discards it with no other side effect (lines 249–272), and time passing
triggers nothing because no timer for command replies exists anywhere in
the page. -/
def pageCommandStep (s : PageCommandState) : GatewayEvent → PageCommandState
  | .commandSent _ _ => { s with logCount := s.logCount + 1 }
  | .inboundMessage _ => { s with logCount := s.logCount + 1 }
  | .elapse _ => s

def runPageCommands (s : PageCommandState) (es : List GatewayEvent) : PageCommandState :=
  List.foldl pageCommandStep s es

def pageCommandInit : PageCommandState :=
  { pendingCommands := [], timeoutResolutions := [], logCount := 0 }

theorem runPageCommands_preserves (es : List GatewayEvent) :
    ∀ s : PageCommandState,
      (runPageCommands s es).pendingCommands = s.pendingCommands ∧
      (runPageCommands s es).timeoutResolutions = s.timeoutResolutions := by
  induction es with
  | nil => intro s; exact ⟨rfl, rfl⟩
  | cons e rest ih =>
    intro s
    have hstep : runPageCommands s (e :: rest) = runPageCommands (pageCommandStep s e) rest :=
      rfl
    rw [hstep]
    rcases ih (pageCommandStep s e) with ⟨hp, ht⟩
    cases e with
    | commandSent tid m => exact ⟨hp, ht⟩
    | inboundMessage p => exact ⟨hp, ht⟩
    | elapse ms => exact ⟨hp, ht⟩

/-- C3 evidence: the code has no command correlation.  For every event
sequence — in particular a command sent and then any amount of elapsed time
with no matching reply — the page never registers a pending command and
never resolves anything to a timeout error, contradicting the claimed
`Timeout` resolution and purge; a late-arriving reply is indeed only logged
and discarded (`onTelemetryChange` increments the log and changes nothing
else), but only because no reply, timely or late, ever has any other
effect. -/
theorem c3_no_timeout_resolution_exists (es : List GatewayEvent)
    (tid : String) (p : InboundPayload) :
    (runPageCommands pageCommandInit es).pendingCommands = [] ∧
    (runPageCommands pageCommandInit es).timeoutResolutions = [] ∧
    (runPageCommands pageCommandInit
        [.commandSent tid "osd.get", .elapse 10000, .elapse 10000]).timeoutResolutions = [] ∧
    (∀ s : PageCommandState,
      pageCommandStep s (.inboundMessage p) =
        { s with logCount := s.logCount + 1 }) := by
  rcases runPageCommands_preserves es pageCommandInit with ⟨hp, ht⟩
  exact ⟨hp, ht, rfl, fun s => rfl⟩

/-! ## Global callback registration (C8): `window.onTelemetryChange`
assignments in `src/pages/dji-login.tsx` lines 249 and 439. -/

/-- A browser window's single `onTelemetryChange` slot.  The type of the
handler is abstract (`κ`): the pages assign plain functions to it. -/
structure CallbackWindow (κ : Type) where
  onTelemetryChangeSlot : Option κ

/-- Embedding of the assignment `window.onTelemetryChange = fn`: it
unconditionally replaces whatever handler was stored before; nothing chains
to or preserves the previous value. -/
def registerOnTelemetryChange {κ : Type} (_w : CallbackWindow κ) (f : κ) : CallbackWindow κ :=
  { onTelemetryChangeSlot := some f }

/-- Delivery of a telemetry event by the vendor bridge: only the function
currently in the slot (if any) is invoked. -/
def fireTelemetryEvent {β : Type} (w : CallbackWindow (String → β)) (dataStr : String) :
    Option β :=
  Option.map (fun f => f dataStr) w.onTelemetryChangeSlot

/-- The last element of a registration sequence. -/
def lastRegistered {κ : Type} : List κ → Option κ
  | [] => none
  | [f] => some f
  | _ :: f :: fs => lastRegistered (f :: fs)

theorem foldl_register_eq_last {κ : Type} (regs : List κ) (f : κ)
    (hlast : lastRegistered regs = some f) :
    ∀ w : CallbackWindow κ,
      (List.foldl registerOnTelemetryChange w regs).onTelemetryChangeSlot = some f := by
  induction regs with
  | nil => exact absurd hlast (by simp [lastRegistered])
  | cons a rest ih =>
    intro w
    cases rest with
    | nil =>
      have : a = f := by
        have := hlast
        unfold lastRegistered at this
        exact Option.some.injEq _ _ ▸ this
      subst this
      rfl
    | cons b rs =>
      have hlast' : lastRegistered (b :: rs) = some f := hlast
      exact ih hlast' (registerOnTelemetryChange w a)

/-- C8: `window.onTelemetryChange` registration is a single-slot,
last-registration-wins mechanism.  After any non-empty sequence of
assignments the slot holds exactly the most recent function; a telemetry
event is delivered only to it; and each assignment silently overwrites
whatever was registered before, with no unregister safety — the previous
handler is simply gone. -/
theorem c8_callback_registration_last_wins {β : Type}
    (w : CallbackWindow (String → β)) (regs : List (String → β)) (f : String → β)
    (hlast : lastRegistered regs = some f) :
    (List.foldl registerOnTelemetryChange w regs).onTelemetryChangeSlot = some f ∧
    (∀ dataStr : String,
      fireTelemetryEvent (List.foldl registerOnTelemetryChange w regs) dataStr =
        some (f dataStr)) ∧
    (∀ w' : CallbackWindow (String → β), ∀ g : String → β,
      (registerOnTelemetryChange w' g).onTelemetryChangeSlot = some g) := by
  have hslot := foldl_register_eq_last regs f hlast w
  refine ⟨hslot, ?_, fun w' g => rfl⟩
  intro dataStr
  unfold fireTelemetryEvent
  rw [hslot]
  rfl

/-- Witness for C8: both registrations made by `dji-login.tsx` — the
message-classifying handler from `setupDjiConnection` and the raw logger
from the `useEffect` — modelled as two functions; after both assignments
only the second receives events. -/
theorem c8_callback_registration_last_wins_witness :
    (List.foldl registerOnTelemetryChange
        (⟨none⟩ : CallbackWindow (String → Nat))
        [fun s => s.length, fun _ => 7]).onTelemetryChangeSlot = some (fun _ => 7) ∧
    (∀ dataStr : String,
      fireTelemetryEvent
          (List.foldl registerOnTelemetryChange
            (⟨none⟩ : CallbackWindow (String → Nat))
            [fun s => s.length, fun _ => 7]) dataStr =
        some ((fun _ => 7) dataStr)) ∧
    (∀ w' : CallbackWindow (String → Nat), ∀ g : String → Nat,
      (registerOnTelemetryChange w' g).onTelemetryChangeSlot = some g) :=
  c8_callback_registration_last_wins ⟨none⟩ [fun s => s.length, fun _ => 7]
    (fun _ => 7) rfl

end Droneserver
